import Mathlib

/-!
Verification development for the xk6-browser-safari core: a shallow
embedding of the WebDriver protocol client (`internal/browser/webdriver.go`),
the selector resolver (`internal/browser/selectors.go`) and the pure
image-comparison functions, together with theorems settling the frozen
claims about them.

Modelling conventions:
* HTTP traffic is modelled by an explicit `HttpState`: a queue of pending
  transport outcomes (one per HTTP exchange, in order) and a trace of the
  requests actually issued.  An operation that performs no network call
  leaves the state untouched.
* Decoded JSON bodies are modelled by the inductive `JValue` (the closed
  union null / bool / number / string / array / object that
  `encoding/json` produces for `interface\x7b\x7d` targets).  Numbers are
  rationals (Go decodes JSON numbers into `float64`; the exact values used
  by the claims are integers, where IEEE double arithmetic is exact).
* The fixed 30-second deadline of the two poll loops is modelled by a
  `fuel : Nat` argument counting the ticks the deadline still allows
  (300 in the real code: 30 s at one tick per 100 ms); `fuel = 0` is the
  expired deadline.
* Go `error` results are `Except String`; the strings reproduce the
  `fmt.Errorf` formats of the source.
-/

/-- JSON value as decoded by Go `encoding/json` into an `interface\x7b\x7d`:
null, booleans, numbers (float64, idealised as rationals), strings,
arrays and key-ordered objects. -/
inductive JValue where
  | null
  | bool (b : Bool)
  | num (q : Rat)
  | str (s : String)
  | arr (xs : List JValue)
  | obj (fields : List (String × JValue))

/-- Look up a key in a decoded JSON object, mirroring Go map indexing
(`encoding/json` never produces duplicate keys; the first binding wins). -/
def jLookup (fields : List (String × JValue)) (key : String) : Option JValue :=
  match fields with
  | [] => none
  | (k, v) :: rest => if k = key then some v else jLookup rest key

/-- HTTP request as issued through `net/http`: method, full URL and the
decoded JSON body (none for bodyless GET/DELETE requests). -/
structure HTTPRequest where
  method : String
  url : String
  body : Option JValue

/-- HTTP response as seen by the client after transport: status code and
decoded JSON body. -/
structure HTTPResponse where
  status : Nat
  body : JValue

/-- Transport state: the queue of outcomes the stub endpoint will produce
for successive exchanges (a `.error` models a transport-level failure of
`httpClient.Do`), and the trace of requests issued so far. -/
structure HttpState where
  queue : List (Except String HTTPResponse)
  trace : List HTTPRequest

/-- Perform one HTTP exchange: record the request in the trace and consume
the next queued outcome (an exhausted queue behaves as a transport error). -/
def sendRequest (req : HTTPRequest) (h : HttpState) :
    Except String HTTPResponse × HttpState :=
  match h.queue with
  | [] => (.error "no response from endpoint", ⟨[], h.trace ++ [req]⟩)
  | r :: rest => (r, ⟨rest, h.trace ++ [req]⟩)

/-- The protocol client (`WebDriverClient`): base endpoint URL and the
locally stored session identifier (empty string = no active session). -/
structure WebDriverClient where
  baseURL : String
  sessionID : String

/-- Decode a response body into Go `struct \x7b Value interface\x7b\x7d \x7d`:
the body must be a JSON object (or null); the `value` field is returned
as-is, defaulting to null when absent. -/
def decodeValueAny (body : JValue) : Except String JValue :=
  match body with
  | .obj fields =>
    match jLookup fields "value" with
    | some v => .ok v
    | none => .ok .null
  | .null => .ok .null
  | _ => .error "json: cannot unmarshal value"

/-- Decode a response body into Go `struct \x7b Value string \x7d`:
the body must be an object (or null); a present `value` field must be a
string, an absent or null one decodes to the empty string. -/
def decodeValueString (body : JValue) : Except String String :=
  match body with
  | .obj fields =>
    match jLookup fields "value" with
    | some (.str s) => .ok s
    | some .null => .ok ""
    | none => .ok ""
    | some _ => .error "json: cannot unmarshal value"
  | .null => .ok ""
  | _ => .error "json: cannot unmarshal value"

/-- Extract the remote error message from a non-2xx response body, as the
Go code does by decoding into a map and reading `value.message`; `none`
when the shape does not match. -/
def extractErrorMessage (body : JValue) : Option String :=
  match body with
  | .obj fields =>
    match jLookup fields "value" with
    | some (.obj valueFields) =>
      match jLookup valueFields "message" with
      | some (.str msg) => some msg
      | _ => none
    | _ => none
  | _ => none

/-- ExecuteScript (`webdriver.go`): POST script and argument array to the
synchronous-execute endpoint; empty session id fails locally with no
request; non-2xx surfaces the remote message when one is decodable;
otherwise the decoded `value` field is returned.  (The Go `args == nil`
defaulting to an empty array is subsumed by `args : List JValue`.) -/
def ExecuteScript (c : WebDriverClient) (script : String) (args : List JValue)
    (h : HttpState) : Except String JValue × HttpState :=
  if c.sessionID = "" then (.error "no active session", h)
  else
    let req : HTTPRequest :=
      { method := "POST"
        url := c.baseURL ++ "/session/" ++ c.sessionID ++ "/execute/sync"
        body := some (.obj [("script", .str script), ("args", .arr args)]) }
    match sendRequest req h with
    | (.error e, h2) => (.error ("failed to execute script: " ++ e), h2)
    | (.ok resp, h2) =>
      if resp.status ≠ 200 then
        match extractErrorMessage resp.body with
        | some msg =>
          (.error ("script execution failed with status " ++
            toString resp.status ++ ": " ++ msg), h2)
        | none =>
          (.error ("script execution failed with status: " ++
            toString resp.status), h2)
      else
        match decodeValueAny resp.body with
        | .ok v => (.ok v, h2)
        | .error e => (.error ("failed to decode script response: " ++ e), h2)

/-- pollForCondition (`webdriver.go`): execute the condition script once
per tick; a script-execution error is returned immediately (wrapped);
a boolean `true` result ends the wait; anything else polls again; an
expired deadline (`fuel = 0`) times out. -/
def pollForCondition (c : WebDriverClient) (script : String) :
    Nat → HttpState → Except String Unit × HttpState
  | 0, h => (.error "timeout waiting for condition after 30s", h)
  | fuel + 1, h =>
    match ExecuteScript c script [] h with
    | (.error e, h2) => (.error ("failed to execute condition script: " ++ e), h2)
    | (.ok v, h2) =>
      match v with
      | .bool true => (.ok (), h2)
      | _ => pollForCondition c script fuel h2

/-- Condition script of waitForDOMContentLoaded (`webdriver.go`). -/
def domContentLoadedScript : String :=
  "return document.readyState === \x27interactive\x27 || document.readyState === \x27complete\x27;"

/-- Condition script of waitForNetworkIdle (`webdriver.go`). -/
def networkIdleScript : String :=
  "return document.readyState === \x27complete\x27;"

/-- waitForDOMContentLoaded (`webdriver.go`): poll until the document is
interactive or complete. -/
def waitForDOMContentLoaded (c : WebDriverClient) (fuel : Nat) (h : HttpState) :
    Except String Unit × HttpState :=
  pollForCondition c domContentLoadedScript fuel h

/-- waitForNetworkIdle (`webdriver.go`): poll until the document is
complete, then sleep 500 ms (no observable effect in the model). -/
def waitForNetworkIdle (c : WebDriverClient) (fuel : Nat) (h : HttpState) :
    Except String Unit × HttpState :=
  match pollForCondition c networkIdleScript fuel h with
  | (.error e, h2) => (.error e, h2)
  | (.ok _, h2) => (.ok (), h2)

/-- Go `strings.HasPrefix`, over the character sequence of the string
(the prefixes used by the resolver are ASCII, where Go byte-prefix and
character-prefix agree). -/
def goHasPrefix (s pre : String) : Bool :=
  pre.data.isPrefixOf s.data

/-- Go `strings.TrimPrefix`: strips `pre` when it is a prefix, otherwise
returns the string unchanged. -/
def goTrimPrefix (s pre : String) : String :=
  if goHasPrefix s pre then ⟨s.data.drop pre.data.length⟩ else s

/-- Go `strings.ReplaceAll` specialised to a one-character pattern (the
only patterns the source uses: a double quote and a single quote). -/
def replaceChar (pat : Char) (rep : List Char) : List Char → List Char
  | [] => []
  | c :: rest =>
    if c = pat then rep ++ replaceChar pat rep rest
    else c :: replaceChar pat rep rest

/-- Selector strategies are plain strings in the source
(`type SelectorStrategy string`). -/
abbrev SelectorStrategy := String

/-- Native WebDriver strategy constant (selectors.go). -/
def StrategyCSSSelector : SelectorStrategy := "css selector"

/-- Native WebDriver strategy constant (selectors.go). -/
def StrategyXPath : SelectorStrategy := "xpath"

/-- Native WebDriver strategy constant (selectors.go). -/
def StrategyLinkText : SelectorStrategy := "link text"

/-- Native WebDriver strategy constant (selectors.go). -/
def StrategyPartialLinkText : SelectorStrategy := "partial link text"

/-- Native WebDriver strategy constant (selectors.go). -/
def StrategyID : SelectorStrategy := "id"

/-- Native WebDriver strategy constant (selectors.go). -/
def StrategyClassName : SelectorStrategy := "class name"

/-- Native WebDriver strategy constant (selectors.go). -/
def StrategyTagName : SelectorStrategy := "tag name"

/-- Custom JavaScript-based strategy constant (selectors.go). -/
def StrategyText : SelectorStrategy := "text"

/-- Custom JavaScript-based strategy constant (selectors.go). -/
def StrategyDataTestID : SelectorStrategy := "data-testid"

/-- Custom JavaScript-based strategy constant (selectors.go). -/
def StrategyAriaLabel : SelectorStrategy := "aria-label"

/-- Custom JavaScript-based strategy constant (selectors.go). -/
def StrategyRole : SelectorStrategy := "role"

/-- Custom JavaScript-based strategy constant (selectors.go). -/
def StrategyVisibleText : SelectorStrategy := "visible-text"

/-- Parsed selector information (selectors.go `ParsedSelector`). -/
structure ParsedSelector where
  Strategy : SelectorStrategy
  Value : String
  IsNative : Bool
deriving DecidableEq

/-- ParseSelector (selectors.go): classify a selector string by testing
the ordered list of literal prefixes; the first match wins; no match
defaults to CSS selector (native). -/
def ParseSelector (selector : String) : ParsedSelector :=
  if goHasPrefix selector "xpath=" then
    ⟨StrategyXPath, goTrimPrefix selector "xpath=", true⟩
  else if goHasPrefix selector "//" || goHasPrefix selector "(//" then
    ⟨StrategyXPath, selector, true⟩
  else if goHasPrefix selector "text=" then
    ⟨StrategyText, goTrimPrefix selector "text=", false⟩
  else if goHasPrefix selector "visible-text=" then
    ⟨StrategyVisibleText, goTrimPrefix selector "visible-text=", false⟩
  else if goHasPrefix selector "id=" then
    ⟨StrategyID, goTrimPrefix selector "id=", true⟩
  else if goHasPrefix selector "class=" then
    ⟨StrategyClassName, goTrimPrefix selector "class=", true⟩
  else if goHasPrefix selector "tag=" then
    ⟨StrategyTagName, goTrimPrefix selector "tag=", true⟩
  else if goHasPrefix selector "link=" then
    ⟨StrategyLinkText, goTrimPrefix selector "link=", true⟩
  else if goHasPrefix selector "partial-link=" then
    ⟨StrategyPartialLinkText, goTrimPrefix selector "partial-link=", true⟩
  else if goHasPrefix selector "data-testid=" then
    ⟨StrategyDataTestID, goTrimPrefix selector "data-testid=", false⟩
  else if goHasPrefix selector "aria-label=" then
    ⟨StrategyAriaLabel, goTrimPrefix selector "aria-label=", false⟩
  else if goHasPrefix selector "role=" then
    ⟨StrategyRole, goTrimPrefix selector "role=", false⟩
  else
    ⟨StrategyCSSSelector, selector, true⟩

/-- Escape double quotes for embedding a value in generated script text
(Go `strings.ReplaceAll(value, quote, backslash-quote)`). -/
def escapeQuotes (value : String) : String :=
  ⟨replaceChar '"' ['\\', '"'] value.data⟩

/-- generateSelectorScript (selectors.go): the single-result lookup script
for custom strategies; byte-for-byte the Go raw-string templates with the
escaped value substituted for the `%s` holes. -/
def generateSelectorScript (strategy : SelectorStrategy) (value : String) : String :=
  let escapedValue := escapeQuotes value
  if strategy = StrategyText then
    "\n\t\t\t// Find the most specific (deepest) element with exact matching text\n" ++
    "\t\t\tvar elements = Array.from(document.querySelectorAll(\x27*\x27));\n" ++
    "\t\t\tvar matches = elements.filter(function(el) \x7b\n" ++
    "\t\t\t\t// Get only the direct text content (not from children)\n" ++
    "\t\t\t\tvar directText = Array.from(el.childNodes)\n" ++
    "\t\t\t\t\t.filter(function(node) \x7b return node.nodeType === 3; \x7d)\n" ++
    "\t\t\t\t\t.map(function(node) \x7b return node.textContent; \x7d)\n" ++
    "\t\t\t\t\t.join(\x27\x27).trim();\n" ++
    "\t\t\t\treturn directText === \"" ++ escapedValue ++
      "\" || el.textContent.trim() === \"" ++ escapedValue ++ "\";\n" ++
    "\t\t\t\x7d);\n" ++
    "\t\t\t// Return the deepest (most specific) match\n" ++
    "\t\t\tif (matches.length > 0) \x7b\n" ++
    "\t\t\t\treturn matches[matches.length - 1];\n" ++
    "\t\t\t\x7d\n" ++
    "\t\t\treturn null;\n" ++
    "\t\t"
  else if strategy = StrategyVisibleText then
    "\n\t\t\t// Find the most specific visible element containing the text\n" ++
    "\t\t\tvar elements = Array.from(document.querySelectorAll(\x27*\x27));\n" ++
    "\t\t\tvar matches = elements.filter(function(el) \x7b\n" ++
    "\t\t\t\t// Check visibility\n" ++
    "\t\t\t\tif (el.offsetWidth === 0 || el.offsetHeight === 0) return false;\n" ++
    "\t\t\t\tvar style = window.getComputedStyle(el);\n" ++
    "\t\t\t\tif (style.display === \x27none\x27 || style.visibility === \x27hidden\x27) return false;\n" ++
    "\t\t\t\t\n" ++
    "\t\t\t\t// Check text content\n" ++
    "\t\t\t\tvar text = el.textContent ? el.textContent.trim() : \x27\x27;\n" ++
    "\t\t\t\treturn text.includes(\"" ++ escapedValue ++ "\");\n" ++
    "\t\t\t\x7d);\n" ++
    "\t\t\t\n" ++
    "\t\t\t// Return the smallest (most specific) element\n" ++
    "\t\t\t// Sort by total descendants count (fewer = more specific)\n" ++
    "\t\t\tmatches.sort(function(a, b) \x7b\n" ++
    "\t\t\t\treturn a.getElementsByTagName(\x27*\x27).length - b.getElementsByTagName(\x27*\x27).length;\n" ++
    "\t\t\t\x7d);\n" ++
    "\t\t\t\n" ++
    "\t\t\treturn matches.length > 0 ? matches[0] : null;\n" ++
    "\t\t"
  else if strategy = StrategyDataTestID then
    "return document.querySelector(\x27[data-testid=\"" ++ escapedValue ++ "\"]\x27);"
  else if strategy = StrategyAriaLabel then
    "return document.querySelector(\x27[aria-label=\"" ++ escapedValue ++ "\"]\x27);"
  else if strategy = StrategyRole then
    "return document.querySelector(\x27[role=\"" ++ escapedValue ++ "\"]\x27);"
  else
    "return document.querySelector(\"" ++ escapedValue ++ "\");"

/-- generateAllSelectorScript (selectors.go): the all-results lookup
script for custom strategies. -/
def generateAllSelectorScript (strategy : SelectorStrategy) (value : String) : String :=
  let escapedValue := escapeQuotes value
  if strategy = StrategyText then
    "\n\t\t\tvar elements = Array.from(document.querySelectorAll(\x27*\x27));\n" ++
    "\t\t\treturn elements.filter(function(el) \x7b\n" ++
    "\t\t\t\tvar directText = Array.from(el.childNodes)\n" ++
    "\t\t\t\t\t.filter(function(node) \x7b return node.nodeType === 3; \x7d)\n" ++
    "\t\t\t\t\t.map(function(node) \x7b return node.textContent; \x7d)\n" ++
    "\t\t\t\t\t.join(\x27\x27).trim();\n" ++
    "\t\t\t\treturn directText === \"" ++ escapedValue ++
      "\" || el.textContent.trim() === \"" ++ escapedValue ++ "\";\n" ++
    "\t\t\t\x7d);\n" ++
    "\t\t"
  else if strategy = StrategyVisibleText then
    "\n\t\t\tvar elements = Array.from(document.querySelectorAll(\x27*\x27));\n" ++
    "\t\t\treturn elements.filter(function(el) \x7b\n" ++
    "\t\t\t\tif (el.offsetWidth === 0 || el.offsetHeight === 0) return false;\n" ++
    "\t\t\t\tvar style = window.getComputedStyle(el);\n" ++
    "\t\t\t\tif (style.display === \x27none\x27 || style.visibility === \x27hidden\x27) return false;\n" ++
    "\t\t\t\tvar text = el.textContent ? el.textContent.trim() : \x27\x27;\n" ++
    "\t\t\t\treturn text.includes(\"" ++ escapedValue ++ "\");\n" ++
    "\t\t\t\x7d);\n" ++
    "\t\t"
  else if strategy = StrategyDataTestID then
    "return Array.from(document.querySelectorAll(\x27[data-testid=\"" ++ escapedValue ++ "\"]\x27));"
  else if strategy = StrategyAriaLabel then
    "return Array.from(document.querySelectorAll(\x27[aria-label=\"" ++ escapedValue ++ "\"]\x27));"
  else if strategy = StrategyRole then
    "return Array.from(document.querySelectorAll(\x27[role=\"" ++ escapedValue ++ "\"]\x27));"
  else
    "return Array.from(document.querySelectorAll(\"" ++ escapedValue ++ "\"));"

/-- Element-finding sub-expression built by generateWaitScript
(webdriver.go, the `findElementScript` local): `querySelector` for CSS,
`document.evaluate` for XPath, the wrapped selector script otherwise. -/
def waitFindElementScript (selector : String) : String :=
  let parsed := ParseSelector selector
  if parsed.IsNative then
    if parsed.Strategy = StrategyCSSSelector then
      "document.querySelector(\"" ++ escapeQuotes parsed.Value ++ "\")"
    else if parsed.Strategy = StrategyXPath then
      "document.evaluate(\x27" ++ String.mk (replaceChar '\x27' ['\\', '\x27'] parsed.Value.data) ++
        "\x27, document, null, XPathResult.FIRST_ORDERED_NODE_TYPE, null).singleNodeValue"
    else
      "(" ++ generateSelectorScript parsed.Strategy parsed.Value ++ ")"
  else
    "(" ++ generateSelectorScript parsed.Strategy parsed.Value ++ ")"

/-- generateWaitScript (webdriver.go): build the condition script checked
on each tick of WaitForSelector, from the requested element state. -/
def generateWaitScript (selector state : String) : String :=
  let findElementScript := waitFindElementScript selector
  if state = "attached" then
    "\n\t\t\tvar element = " ++ findElementScript ++ ";\n" ++
    "\t\t\treturn element !== null && element !== undefined;\n" ++
    "\t\t"
  else if state = "detached" then
    "\n\t\t\tvar element = " ++ findElementScript ++ ";\n" ++
    "\t\t\treturn element === null || element === undefined;\n" ++
    "\t\t"
  else if state = "visible" then
    "\n\t\t\tvar element = " ++ findElementScript ++ ";\n" ++
    "\t\t\tif (!element) return false;\n" ++
    "\t\t\tif (element.offsetWidth === 0 || element.offsetHeight === 0) return false;\n" ++
    "\t\t\tvar style = window.getComputedStyle(element);\n" ++
    "\t\t\treturn style.display !== \x27none\x27 && style.visibility !== \x27hidden\x27" ++
    " && style.opacity !== \x270\x27;\n\t\t"
  else if state = "hidden" then
    "\n\t\t\tvar element = " ++ findElementScript ++ ";\n" ++
    "\t\t\tif (!element) return true;\n" ++
    "\t\t\tif (element.offsetWidth === 0 || element.offsetHeight === 0) return true;\n" ++
    "\t\t\tvar style = window.getComputedStyle(element);\n" ++
    "\t\t\treturn style.display === \x27none\x27 || style.visibility === \x27hidden\x27 || style.opacity === \x270\x27;\n" ++
    "\t\t"
  else
    -- Default to visible (source comment); note the missing opacity check.
    "\n\t\t\tvar element = " ++ findElementScript ++ ";\n" ++
    "\t\t\tif (!element) return false;\n" ++
    "\t\t\tif (element.offsetWidth === 0 || element.offsetHeight === 0) return false;\n" ++
    "\t\t\tvar style = window.getComputedStyle(element);\n" ++
    "\t\t\treturn style.display !== \x27none\x27 && style.visibility !== \x27hidden\x27" ++
    ";\n\t\t"

/-- Decode a response body into the Go element struct
`struct \x7b Value struct \x7b ElementID, ELEMENT string \x7d \x7d`,
returning the pair (modern W3C key, legacy ELEMENT key); fields that are
absent or null decode to the empty string. -/
def decodeElementValue (body : JValue) : Except String (String × String) :=
  let strField (fields : List (String × JValue)) (key : String) :
      Except String String :=
    match jLookup fields key with
    | some (.str s) => .ok s
    | some .null => .ok ""
    | none => .ok ""
    | some _ => .error "json: cannot unmarshal value"
  match body with
  | .obj fields =>
    match jLookup fields "value" with
    | some (.obj valueFields) =>
      match strField valueFields "element-6066-11e4-a52e-4f735466cecf" with
      | .error e => .error e
      | .ok elementID =>
        match strField valueFields "ELEMENT" with
        | .error e => .error e
        | .ok legacy => .ok (elementID, legacy)
    | some .null => .ok ("", "")
    | none => .ok ("", "")
    | some _ => .error "json: cannot unmarshal value"
  | .null => .ok ("", "")
  | _ => .error "json: cannot unmarshal value"

/-- Decode a response body into the Go plural element struct
(`Value` is a slice of two-key element structs). -/
def decodeElementsValue (body : JValue) : Except String (List (String × String)) :=
  let strField (fields : List (String × JValue)) (key : String) :
      Except String String :=
    match jLookup fields key with
    | some (.str s) => .ok s
    | some .null => .ok ""
    | none => .ok ""
    | some _ => .error "json: cannot unmarshal value"
  let rec decodeElems : List JValue → Except String (List (String × String))
    | [] => .ok []
    | elem :: rest =>
      match elem with
      | .obj fields =>
        (match strField fields "element-6066-11e4-a52e-4f735466cecf" with
         | .error e => .error e
         | .ok elementID =>
           match strField fields "ELEMENT" with
           | .error e => .error e
           | .ok legacy =>
             match decodeElems rest with
             | .error e => .error e
             | .ok tail => .ok ((elementID, legacy) :: tail))
      | .null =>
        (match decodeElems rest with
         | .error e => .error e
         | .ok tail => .ok (("", "") :: tail))
      | _ => .error "json: cannot unmarshal value"
  match body with
  | .obj fields =>
    match jLookup fields "value" with
    | some (.arr elems) => decodeElems elems
    | some .null => .ok []
    | none => .ok []
    | some _ => .error "json: cannot unmarshal value"
  | .null => .ok []
  | _ => .error "json: cannot unmarshal value"

/-- findElementNative (selectors.go): native single-element find via
`POST /session/\x7bid\x7d/element`; on a 200 response the modern key is
preferred, then the legacy key, and an element with neither key is the
`element not found` error.  (In the Go non-2xx message the `value`
identifier is shadowed by the decoded error map; the model prints the
selector value instead of Go's rendering of that map.) -/
def findElementNative (c : WebDriverClient) (strategy value : String)
    (h : HttpState) : Except String String × HttpState :=
  if c.sessionID = "" then (.error "no active session", h)
  else
    let req : HTTPRequest :=
      { method := "POST"
        url := c.baseURL ++ "/session/" ++ c.sessionID ++ "/element"
        body := some (.obj [("using", .str strategy), ("value", .str value)]) }
    match sendRequest req h with
    | (.error e, h2) => (.error ("failed to find element: " ++ e), h2)
    | (.ok resp, h2) =>
      if resp.status ≠ 200 then
        match extractErrorMessage resp.body with
        | some msg =>
          (.error ("find element failed with status " ++ toString resp.status ++
            ": strategy=" ++ strategy ++ ", selector=" ++ value ++
            ", error=" ++ msg), h2)
        | none =>
          (.error ("find element failed with status " ++ toString resp.status ++
            ": strategy=" ++ strategy ++ ", selector=" ++ value), h2)
      else
        match decodeElementValue resp.body with
        | .error e => (.error ("failed to decode element response: " ++ e), h2)
        | .ok (elementID, legacy) =>
          if elementID ≠ "" then (.ok elementID, h2)
          else if legacy ≠ "" then (.ok legacy, h2)
          else (.error "element not found", h2)

/-- findElementCustom (selectors.go): run the generated single-result
lookup script; a null result is `element not found`; a map result is
unwrapped through the modern then the legacy key; anything else is an
invalid element reference. -/
def findElementCustom (c : WebDriverClient) (strategy : SelectorStrategy)
    (value : String) (h : HttpState) : Except String String × HttpState :=
  let script := generateSelectorScript strategy value
  match ExecuteScript c script [] h with
  | (.error e, h2) => (.error ("failed to execute selector script: " ++ e), h2)
  | (.ok result, h2) =>
    match result with
    | .null => (.error "element not found", h2)
    | .obj elemMap =>
      (match jLookup elemMap "element-6066-11e4-a52e-4f735466cecf" with
       | some (.str elemID) => (.ok elemID, h2)
       | _ =>
         match jLookup elemMap "ELEMENT" with
         | some (.str elemID) => (.ok elemID, h2)
         | _ => (.error "invalid element reference returned", h2))
    | _ => (.error "invalid element reference returned", h2)

/-- FindElementWithStrategy (selectors.go): dispatch on the parsed
selector to the native or the custom finder. -/
def FindElementWithStrategy (c : WebDriverClient) (selector : String)
    (h : HttpState) : Except String String × HttpState :=
  let parsed := ParseSelector selector
  if parsed.IsNative then
    findElementNative c parsed.Strategy parsed.Value h
  else
    findElementCustom c parsed.Strategy parsed.Value h

/-- FindElement (webdriver.go): alias for the strategy-aware finder. -/
def FindElement (c : WebDriverClient) (selector : String) (h : HttpState) :
    Except String String × HttpState :=
  FindElementWithStrategy c selector h

/-- findAllElementsNative (webdriver.go): native plural find via
`POST /session/\x7bid\x7d/elements`; each returned element contributes its
modern key, else its legacy key, else nothing. -/
def findAllElementsNative (c : WebDriverClient) (strategy value : String)
    (h : HttpState) : Except String (List String) × HttpState :=
  if c.sessionID = "" then (.error "no active session", h)
  else
    let req : HTTPRequest :=
      { method := "POST"
        url := c.baseURL ++ "/session/" ++ c.sessionID ++ "/elements"
        body := some (.obj [("using", .str strategy), ("value", .str value)]) }
    match sendRequest req h with
    | (.error e, h2) => (.error ("failed to find elements: " ++ e), h2)
    | (.ok resp, h2) =>
      if resp.status ≠ 200 then
        (.error ("find elements failed with status: " ++ toString resp.status), h2)
      else
        match decodeElementsValue resp.body with
        | .error e => (.error ("failed to decode elements response: " ++ e), h2)
        | .ok elems =>
          (.ok (elems.filterMap (fun elem =>
            if elem.1 ≠ "" then some elem.1
            else if elem.2 ≠ "" then some elem.2
            else none)), h2)

/-- findAllElementsCustom (webdriver.go): run the generated all-results
script; a null or non-array result is the empty list (no error); array
entries are unwrapped through the modern then the legacy key, skipping
entries with neither. -/
def findAllElementsCustom (c : WebDriverClient) (strategy : SelectorStrategy)
    (value : String) (h : HttpState) : Except String (List String) × HttpState :=
  let script := generateAllSelectorScript strategy value
  match ExecuteScript c script [] h with
  | (.error e, h2) => (.error ("failed to execute selector script: " ++ e), h2)
  | (.ok result, h2) =>
    match result with
    | .null => (.ok [], h2)
    | .arr elemArray =>
      (.ok (elemArray.filterMap (fun elem =>
        match elem with
        | .obj elemMap =>
          (match jLookup elemMap "element-6066-11e4-a52e-4f735466cecf" with
           | some (.str elemID) => some elemID
           | _ =>
             match jLookup elemMap "ELEMENT" with
             | some (.str elemID) => some elemID
             | _ => none)
        | _ => none)), h2)
    | _ => (.ok [], h2)

/-- FindAllElements (webdriver.go): dispatch on the parsed selector to the
native or the custom plural finder. -/
def FindAllElements (c : WebDriverClient) (selector : String) (h : HttpState) :
    Except String (List String) × HttpState :=
  let parsed := ParseSelector selector
  if parsed.IsNative then
    findAllElementsNative c parsed.Strategy parsed.Value h
  else
    findAllElementsCustom c parsed.Strategy parsed.Value h

/-- Poll loop of WaitForSelector (webdriver.go): on each tick run the
check script; a script-execution error continues the polling; a boolean
true result satisfies the wait; the expired deadline times out with the
selector and state named in the error. -/
def waitForSelectorLoop (c : WebDriverClient) (script selector state : String) :
    Nat → HttpState → Except String Unit × HttpState
  | 0, h =>
    (.error ("timeout waiting for selector \x27" ++ selector ++ "\x27 to be " ++ state), h)
  | fuel + 1, h =>
    match ExecuteScript c script [] h with
    | (.error _, h2) => waitForSelectorLoop c script selector state fuel h2
    | (.ok v, h2) =>
      match v with
      | .bool true => (.ok (), h2)
      | _ => waitForSelectorLoop c script selector state fuel h2

/-- WaitForSelector (webdriver.go): empty session fails locally; otherwise
poll the generated wait script until satisfied or the fixed deadline. -/
def WaitForSelector (c : WebDriverClient) (selector state : String)
    (fuel : Nat) (h : HttpState) : Except String Unit × HttpState :=
  if c.sessionID = "" then (.error "no active session", h)
  else waitForSelectorLoop c (generateWaitScript selector state) selector state fuel h

/-- NavigateOptions (webdriver.go). -/
structure NavigateOptions where
  WaitUntil : String

/-- Navigate (webdriver.go): empty session fails locally; the navigate
POST is issued (natively blocking for load); then the waitUntil option is
dispatched — `load` returns, `domcontentloaded`/`networkidle` poll, and
any other value is the invalid-argument error (detected only after the
navigate request has been issued). -/
def Navigate (c : WebDriverClient) (url : String) (options : Option NavigateOptions)
    (fuel : Nat) (h : HttpState) : Except String Unit × HttpState :=
  if c.sessionID = "" then (.error "no active session", h)
  else
    let waitUntil :=
      match options with
      | none => "load"
      | some o => if o.WaitUntil = "" then "load" else o.WaitUntil
    let req : HTTPRequest :=
      { method := "POST"
        url := c.baseURL ++ "/session/" ++ c.sessionID ++ "/url"
        body := some (.obj [("url", .str url)]) }
    match sendRequest req h with
    | (.error e, h2) => (.error ("failed to navigate: " ++ e), h2)
    | (.ok resp, h2) =>
      if resp.status ≠ 200 then
        (.error ("navigation failed with status: " ++ toString resp.status), h2)
      else
        if waitUntil = "load" then (.ok (), h2)
        else if waitUntil = "domcontentloaded" then waitForDOMContentLoaded c fuel h2
        else if waitUntil = "networkidle" then waitForNetworkIdle c fuel h2
        else (.error ("invalid waitUntil option: " ++ waitUntil), h2)

/-- Outcome of DeleteSession: the updated client, the returned error
value, the transport state and the warning-level log lines emitted. -/
structure DeleteSessionOutcome where
  client : WebDriverClient
  result : Except String Unit
  http : HttpState
  warnings : List String

/-- DeleteSession (webdriver.go): with no active session it is a warned
no-op; a transport failure is warned and swallowed with the session id
left as it was (the Go request-construction-failure branch behaves the
same way and cannot arise in the model); any received response — 2xx or
not — clears the stored session id; the function never returns an error. -/
def DeleteSession (c : WebDriverClient) (h : HttpState) : DeleteSessionOutcome :=
  if c.sessionID = "" then
    ⟨c, .ok (), h, ["WARN: attempted to delete session, but no active session exists"]⟩
  else
    let req : HTTPRequest :=
      { method := "DELETE"
        url := c.baseURL ++ "/session/" ++ c.sessionID
        body := none }
    match sendRequest req h with
    | (.error e, h2) => ⟨c, .ok (), h2, ["WARN: failed to delete session: " ++ e]⟩
    | (.ok resp, h2) =>
      if resp.status ≠ 200 then
        ⟨{ c with sessionID := "" }, .ok (), h2,
          ["WARN: session deletion failed with status: " ++ toString resp.status]⟩
      else
        ⟨{ c with sessionID := "" }, .ok (), h2, []⟩

/-- GetCurrentURL (webdriver.go). -/
def GetCurrentURL (c : WebDriverClient) (h : HttpState) :
    Except String String × HttpState :=
  if c.sessionID = "" then (.error "no active session", h)
  else
    let req : HTTPRequest :=
      { method := "GET"
        url := c.baseURL ++ "/session/" ++ c.sessionID ++ "/url"
        body := none }
    match sendRequest req h with
    | (.error e, h2) => (.error ("failed to get current URL: " ++ e), h2)
    | (.ok resp, h2) =>
      if resp.status ≠ 200 then
        (.error ("get URL failed with status: " ++ toString resp.status), h2)
      else
        match decodeValueString resp.body with
        | .error e => (.error ("failed to decode URL response: " ++ e), h2)
        | .ok url => (.ok url, h2)

/-- GetTitle (webdriver.go). -/
def GetTitle (c : WebDriverClient) (h : HttpState) :
    Except String String × HttpState :=
  if c.sessionID = "" then (.error "no active session", h)
  else
    let req : HTTPRequest :=
      { method := "GET"
        url := c.baseURL ++ "/session/" ++ c.sessionID ++ "/title"
        body := none }
    match sendRequest req h with
    | (.error e, h2) => (.error ("failed to get title: " ++ e), h2)
    | (.ok resp, h2) =>
      if resp.status ≠ 200 then
        (.error ("get title failed with status: " ++ toString resp.status), h2)
      else
        match decodeValueString resp.body with
        | .error e => (.error ("failed to decode title response: " ++ e), h2)
        | .ok title => (.ok title, h2)

/-- Click script of ClickElement (webdriver.go), byte-for-byte. -/
def clickScript : String :=
  "\n\t\tvar element = arguments[0];\n" ++
  "\t\tif (!element) \x7b\n" ++
  "\t\t\treturn \x7bsuccess: false, error: \"Element not found\"\x7d;\n" ++
  "\t\t\x7d\n" ++
  "\n" ++
  "\t\t// Get element info\n" ++
  "\t\tvar info = \x7b\n" ++
  "\t\t\ttagName: element.tagName,\n" ++
  "\t\t\tid: element.id,\n" ++
  "\t\t\tclassName: element.className,\n" ++
  "\t\t\ttext: element.textContent ? element.textContent.substring(0, 50) : \"\",\n" ++
  "\t\t\tvisible: element.offsetWidth > 0 && element.offsetHeight > 0,\n" ++
  "\t\t\tdisabled: element.disabled,\n" ++
  "\t\t\ttype: element.type\n" ++
  "\t\t\x7d;\n" ++
  "\n" ++
  "\t\t// Scroll into view\n" ++
  "\t\telement.scrollIntoView(\x7bbehavior: \x27instant\x27, block: \x27center\x27, inline: \x27center\x27\x7d);\n" ++
  "\n" ++
  "\t\t// Try to click\n" ++
  "\t\ttry \x7b\n" ++
  "\t\t\telement.click();\n" ++
  "\t\t\treturn \x7bsuccess: true, info: info\x7d;\n" ++
  "\t\t\x7d catch (e) \x7b\n" ++
  "\t\t\treturn \x7bsuccess: false, error: e.toString(), info: info\x7d;\n" ++
  "\t\t\x7d\n" ++
  "\t"

/-- ClickElement (webdriver.go): run the click script with the element
reference as argument; the call fails only when script execution fails or
the decoded result is a map whose `success` key is the boolean false (the
error message then comes from the `error` key, defaulting to `unknown
error`); every other result shape is success.  The Go log lines carry no
return value and are not modelled. -/
def ClickElement (c : WebDriverClient) (elementID : String) (h : HttpState) :
    Except String Unit × HttpState :=
  if c.sessionID = "" then (.error "no active session", h)
  else
    let elementRef : JValue :=
      .obj [("element-6066-11e4-a52e-4f735466cecf", .str elementID)]
    match ExecuteScript c clickScript [elementRef] h with
    | (.error e, h2) => (.error ("failed to click element via JavaScript: " ++ e), h2)
    | (.ok result, h2) =>
      match result with
      | .obj resultMap =>
        (match jLookup resultMap "success" with
         | some (.bool false) =>
           let errorMsg :=
             match jLookup resultMap "error" with
             | some (.str s) => s
             | _ => "unknown error"
           (.error ("click failed: " ++ errorMsg), h2)
         | _ => (.ok (), h2))
      | _ => (.ok (), h2)

/-- SendKeys (webdriver.go): direct protocol command posting the text. -/
def SendKeys (c : WebDriverClient) (elementID text : String) (h : HttpState) :
    Except String Unit × HttpState :=
  if c.sessionID = "" then (.error "no active session", h)
  else
    let req : HTTPRequest :=
      { method := "POST"
        url := c.baseURL ++ "/session/" ++ c.sessionID ++ "/element/" ++
          elementID ++ "/value"
        body := some (.obj [("text", .str text)]) }
    match sendRequest req h with
    | (.error e, h2) => (.error ("failed to send keys: " ++ e), h2)
    | (.ok resp, h2) =>
      if resp.status ≠ 200 then
        (.error ("send keys failed with status: " ++ toString resp.status), h2)
      else (.ok (), h2)

/-- Decode a response body into Go
`struct \x7b Value []map[string]interface\x7b\x7d \x7d` for GetAllCookies. -/
def decodeValueCookies (body : JValue) :
    Except String (List (List (String × JValue))) :=
  let rec decodeList : List JValue → Except String (List (List (String × JValue)))
    | [] => .ok []
    | elem :: rest =>
      match elem with
      | .obj fields =>
        (match decodeList rest with
         | .error e => .error e
         | .ok tail => .ok (fields :: tail))
      | .null =>
        (match decodeList rest with
         | .error e => .error e
         | .ok tail => .ok ([] :: tail))
      | _ => .error "json: cannot unmarshal value"
  match body with
  | .obj fields =>
    match jLookup fields "value" with
    | some (.arr elems) => decodeList elems
    | some .null => .ok []
    | none => .ok []
    | some _ => .error "json: cannot unmarshal value"
  | .null => .ok []
  | _ => .error "json: cannot unmarshal value"

/-- GetAllCookies (webdriver.go). -/
def GetAllCookies (c : WebDriverClient) (h : HttpState) :
    Except String (List (List (String × JValue))) × HttpState :=
  if c.sessionID = "" then (.error "no active session", h)
  else
    let req : HTTPRequest :=
      { method := "GET"
        url := c.baseURL ++ "/session/" ++ c.sessionID ++ "/cookie"
        body := none }
    match sendRequest req h with
    | (.error e, h2) => (.error ("failed to get cookies: " ++ e), h2)
    | (.ok resp, h2) =>
      if resp.status ≠ 200 then
        (.error ("get cookies failed with status: " ++ toString resp.status), h2)
      else
        match decodeValueCookies resp.body with
        | .error e => (.error ("failed to decode cookies response: " ++ e), h2)
        | .ok cookies => (.ok cookies, h2)

/-- SetWindowSize (webdriver.go). -/
def SetWindowSize (c : WebDriverClient) (width height : Int) (h : HttpState) :
    Except String Unit × HttpState :=
  if c.sessionID = "" then (.error "no active session", h)
  else
    let req : HTTPRequest :=
      { method := "POST"
        url := c.baseURL ++ "/session/" ++ c.sessionID ++ "/window/rect"
        body := some (.obj [("width", .num width), ("height", .num height)]) }
    match sendRequest req h with
    | (.error e, h2) => (.error ("failed to set window size: " ++ e), h2)
    | (.ok resp, h2) =>
      if resp.status ≠ 200 then
        (.error ("set window size failed with status: " ++ toString resp.status), h2)
      else (.ok (), h2)

/-- Decoded pixel, holding the four channel values returned by Go's
`color.Color.RGBA()`: alpha-premultiplied 16-bit values in `0..65535`
(an 8-bit source channel `v` appears as `v * 0x101 = v * 257`). -/
structure Pixel where
  r : Nat
  g : Nat
  b : Nat
  a : Nat
deriving DecidableEq

/-- Decoded raster image: dimensions plus a pixel function (the model of
`image.Image` with bounds anchored at the origin, as every image built by
this code is). -/
structure Image where
  width : Nat
  height : Nat
  pix : Nat → Nat → Pixel

/-- Read a pixel as Go `At` does: out-of-bounds reads yield the zero
color. -/
def Image.at (img : Image) (x y : Nat) : Pixel :=
  if x < img.width ∧ y < img.height then img.pix x y else ⟨0, 0, 0, 0⟩

/-- Effect of storing a color into an `image.RGBA` via `Set` and reading
it back with `RGBA()`: each 16-bit channel is truncated to 8 bits and
re-expanded (`(v >> 8) * 0x101`). -/
def quantizePixel (p : Pixel) : Pixel :=
  ⟨p.r / 256 * 257, p.g / 256 * 257, p.b / 256 * 257, p.a / 256 * 257⟩

/-- scaleImage (screenshot comparison file): nearest-neighbor scaling into
a fresh RGBA image; the Go float64 ratio arithmetic
`int(float64(x) * (srcW / targetW))` is modelled by the exact rational
floor `x * srcW / targetW`. -/
def scaleImage (src : Image) (targetWidth targetHeight : Nat) : Image :=
  { width := targetWidth
    height := targetHeight
    pix := fun x y =>
      quantizePixel (src.at (x * src.width / targetWidth) (y * src.height / targetHeight)) }

/-- Dimension normalization repeated verbatim in CompareImages,
PixelDifferenceCount and CreateDiffImage: when dimensions differ, the
image that is larger in either axis is rescaled to the other's
dimensions. -/
def normalizeDims (img1 img2 : Image) : Image × Image :=
  if img1.width ≠ img2.width ∨ img1.height ≠ img2.height then
    if img1.width > img2.width ∨ img1.height > img2.height then
      (scaleImage img1 img2.width img2.height, img2)
    else
      (img1, scaleImage img2 img1.width img1.height)
  else (img1, img2)

/-- Sum a rational-valued function over the pixel grid, row by row. -/
def sumOverPixels (w h : Nat) (f : Nat → Nat → Rat) : Rat :=
  ((List.range h).map (fun y => ((List.range w).map (fun x => f x y)).sum)).sum

/-- Count the pixels of the grid satisfying a predicate, row by row. -/
def countOverPixels (w h : Nat) (f : Nat → Nat → Bool) : Nat :=
  ((List.range h).map (fun y =>
    ((List.range w).map (fun x => if f x y then 1 else 0)).sum)).sum

/-- Per-pixel summand of the CompareImages loop: the sum of squared
differences of the four 8-bit channels (each 16-bit `RGBA()` value
shifted right by 8 before subtracting). -/
def squaredError (p1 p2 : Pixel) : Rat :=
  let dr : Rat := ((p1.r / 256 : Nat) : Rat) - ((p2.r / 256 : Nat) : Rat)
  let dg : Rat := ((p1.g / 256 : Nat) : Rat) - ((p2.g / 256 : Nat) : Rat)
  let db : Rat := ((p1.b / 256 : Nat) : Rat) - ((p2.b / 256 : Nat) : Rat)
  let da : Rat := ((p1.a / 256 : Nat) : Rat) - ((p2.a / 256 : Nat) : Rat)
  dr * dr + dg * dg + db * db + da * da

/-- The `totalError` accumulator of CompareImages: squared channel error
summed over the (dimension-normalized) pixel grid. -/
def totalSquaredError (i1 i2 : Image) : Rat :=
  sumOverPixels i1.width i1.height (fun x y => squaredError (i1.at x y) (i2.at x y))

/-- CompareImages (screenshot comparison file), on decoded images: after
dimension normalization, the mean squared error over all four 8-bit
channels (each 16-bit value shifted right by 8) is turned into the
similarity score `1 - min(mse / 255 ^ 2, 1)`.  Go computes in float64;
the model computes the same expression in exact rational arithmetic. -/
def CompareImages (img1 img2 : Image) : Rat :=
  let p := normalizeDims img1 img2
  let totalError := totalSquaredError p.1 p.2
  let pixelCount : Rat := ((p.1.width * p.1.height : Nat) : Rat)
  let mse := totalError / (pixelCount * 4)
  1 - min (mse / (255 * 255)) 1

/-- Go `int32(threshold)` for a `uint32` threshold: two's-complement
reinterpretation. -/
def toInt32 (threshold : Nat) : Int :=
  if threshold < 2 ^ 31 then (threshold : Int) else (threshold : Int) - 2 ^ 32

/-- abs32 (screenshot comparison file). -/
def abs32 (n : Int) : Int :=
  if n < 0 then -n else n

/-- Per-pixel test of PixelDifferenceCount: some channel's absolute
difference of the raw 16-bit `RGBA()` values exceeds the threshold. -/
def pixelExceeds (p1 p2 : Pixel) (threshold : Nat) : Bool :=
  decide (toInt32 threshold < abs32 ((p1.r : Int) - (p2.r : Int))) ||
  decide (toInt32 threshold < abs32 ((p1.g : Int) - (p2.g : Int))) ||
  decide (toInt32 threshold < abs32 ((p1.b : Int) - (p2.b : Int))) ||
  decide (toInt32 threshold < abs32 ((p1.a : Int) - (p2.a : Int)))

/-- PixelDifferenceCount (screenshot comparison file), on decoded images:
after dimension normalization, count the pixels at which some channel
delta — computed on the raw 16-bit `RGBA()` scale, not the 8-bit one —
strictly exceeds the caller-supplied threshold. -/
def PixelDifferenceCount (img1 img2 : Image) (threshold : Nat) : Nat :=
  let p := normalizeDims img1 img2
  countOverPixels p.1.width p.1.height (fun x y =>
    pixelExceeds (p.1.at x y) (p.2.at x y) threshold)

/-- External pure codecs the screenshot path depends on (Go stdlib
`image/png` and `encoding/base64`), supplied as parameters: the claims
never look inside them. -/
structure PngCodec where
  decode : List Nat → Except String Image
  encode : Image → List Nat
  b64decode : String → Except String (List Nat)

/-- Viewport-measuring script of TakeScreenshot (webdriver.go). -/
def viewportScript : String :=
  "\n\t\treturn \x7b\n" ++
  "\t\t\twidth: window.innerWidth,\n" ++
  "\t\t\theight: window.innerHeight,\n" ++
  "\t\t\tdevicePixelRatio: window.devicePixelRatio || 1\n" ++
  "\t\t\x7d;\n" ++
  "\t"

/-- Go float64-to-int conversion (truncation toward zero) on the rational
model of float64. -/
def goInt (q : Rat) : Int :=
  Int.tdiv q.num q.den

/-- cropImageRect (webdriver.go): copy a sub-rectangle into a fresh RGBA
image (out-of-range reads are the zero color, as with Go `At`). -/
def cropImageRect (img : Image) (x y width height : Nat) : Image :=
  { width := width
    height := height
    pix := fun dx dy => quantizePixel (img.at (x + dx) (y + dy)) }

/-- cropImage (webdriver.go): decode, return the original bytes when the
requested size covers the whole image, otherwise crop to the clamped size
anchored at the top-left corner and re-encode. -/
def cropImage (codec : PngCodec) (imageData : List Nat) (width height : Int) :
    Except String (List Nat) :=
  match codec.decode imageData with
  | .error e => .error ("failed to decode PNG: " ++ e)
  | .ok img =>
    let imgWidth : Int := img.width
    let imgHeight : Int := img.height
    if width ≥ imgWidth ∧ height ≥ imgHeight then .ok imageData
    else
      let croppedWidth := if width > imgWidth then imgWidth else width
      let croppedHeight := if height > imgHeight then imgHeight else height
      .ok (codec.encode (cropImageRect img 0 0 croppedWidth.toNat croppedHeight.toNat))

/-- takeFullScreenshot (webdriver.go): GET the screenshot, decode the
`value` string and base64-decode it into raw PNG bytes. -/
def takeFullScreenshot (c : WebDriverClient) (codec : PngCodec) (h : HttpState) :
    Except String (List Nat) × HttpState :=
  let req : HTTPRequest :=
    { method := "GET"
      url := c.baseURL ++ "/session/" ++ c.sessionID ++ "/screenshot"
      body := none }
  match sendRequest req h with
  | (.error e, h2) => (.error ("failed to take screenshot: " ++ e), h2)
  | (.ok resp, h2) =>
    if resp.status ≠ 200 then
      (.error ("screenshot failed with status: " ++ toString resp.status), h2)
    else
      match decodeValueString resp.body with
      | .error e => (.error ("failed to decode screenshot response: " ++ e), h2)
      | .ok encoded =>
        match codec.b64decode encoded with
        | .error e => (.error ("failed to decode base64 screenshot: " ++ e), h2)
        | .ok decoded => (.ok decoded, h2)

/-- TakeScreenshot (webdriver.go): measure the viewport by script, fall
back to the full capture when the measurement fails or yields zero
dimensions, otherwise crop the full capture to viewport × device pixel
ratio, falling back to the uncropped capture if cropping fails. -/
def TakeScreenshot (c : WebDriverClient) (codec : PngCodec) (h : HttpState) :
    Except String (List Nat) × HttpState :=
  if c.sessionID = "" then (.error "no active session", h)
  else
    match ExecuteScript c viewportScript [] h with
    | (.error _, h2) => takeFullScreenshot c codec h2
    | (.ok viewportResult, h2) =>
      match viewportResult with
      | .obj viewport =>
        let width : Int :=
          match jLookup viewport "width" with
          | some (.num w) => goInt w
          | _ => 0
        let height : Int :=
          match jLookup viewport "height" with
          | some (.num hgt) => goInt hgt
          | _ => 0
        let dpr : Rat :=
          match jLookup viewport "devicePixelRatio" with
          | some (.num d) => d
          | _ => 1
        if width = 0 ∨ height = 0 then takeFullScreenshot c codec h2
        else
          match takeFullScreenshot c codec h2 with
          | (.error e, h3) => (.error e, h3)
          | (.ok fullScreenshot, h3) =>
            let targetWidth := goInt ((width : Rat) * dpr)
            let targetHeight := goInt ((height : Rat) * dpr)
            match cropImage codec fullScreenshot targetWidth targetHeight with
            | .error _ => (.ok fullScreenshot, h3)
            | .ok cropped => (.ok cropped, h3)
      | _ => takeFullScreenshot c codec h2

/-- One row of the selector prefix table as the spec describes it: the
literal prefix, the strategy and native flag it dictates, and whether the
prefix is stripped from the value (the bare XPath forms keep the whole
input). -/
structure PrefixRule where
  pre : String
  strategy : SelectorStrategy
  native : Bool
  strip : Bool

/-- Modelled from the spec: the ordered prefix table of the selector
micro-language — `xpath=`, bare `//` or `(//`, `text=`, `visible-text=`,
`id=`, `class=`, `tag=`, `link=`, `partial-link=`, `data-testid=`,
`aria-label=`, `role=` — each dictating its (strategy, native, strip)
triple. -/
def specSelectorTable : List PrefixRule :=
  [⟨"xpath=", StrategyXPath, true, true⟩,
   ⟨"//", StrategyXPath, true, false⟩,
   ⟨"(//", StrategyXPath, true, false⟩,
   ⟨"text=", StrategyText, false, true⟩,
   ⟨"visible-text=", StrategyVisibleText, false, true⟩,
   ⟨"id=", StrategyID, true, true⟩,
   ⟨"class=", StrategyClassName, true, true⟩,
   ⟨"tag=", StrategyTagName, true, true⟩,
   ⟨"link=", StrategyLinkText, true, true⟩,
   ⟨"partial-link=", StrategyPartialLinkText, true, true⟩,
   ⟨"data-testid=", StrategyDataTestID, false, true⟩,
   ⟨"aria-label=", StrategyAriaLabel, false, true⟩,
   ⟨"role=", StrategyRole, false, true⟩]

/-- First rule of the table whose prefix matches the input. -/
def firstRuleMatch : List PrefixRule → String → Option PrefixRule
  | [], _ => none
  | r :: rest, s => if goHasPrefix s r.pre then some r else firstRuleMatch rest s

/-- Modelled from the spec: selector classification as §4.2 words it —
the first matching prefix of the ordered table wins and determines
strategy, native flag and (un)stripped value; no match defaults to
(CSS selector, unchanged input, native). -/
def parseSelectorSpec (selector : String) : ParsedSelector :=
  match firstRuleMatch specSelectorTable selector with
  | some r =>
    ⟨r.strategy, if r.strip then ⟨selector.data.drop r.pre.data.length⟩ else selector,
      r.native⟩
  | none => ⟨StrategyCSSSelector, selector, true⟩

/-- Shared part of the `visible` and default branches of
generateWaitScript: everything up to (and excluding) the opacity
conjunct. -/
def waitScriptCommon (selector : String) : String :=
  "\n\t\t\tvar element = " ++ waitFindElementScript selector ++ ";\n" ++
  "\t\t\tif (!element) return false;\n" ++
  "\t\t\tif (element.offsetWidth === 0 || element.offsetHeight === 0) return false;\n" ++
  "\t\t\tvar style = window.getComputedStyle(element);\n" ++
  "\t\t\treturn style.display !== \x27none\x27 && style.visibility !== \x27hidden\x27"

/-- A decoded click-script result that reports failure: a map whose
`success` key holds the boolean false.  Every other shape (null, non-map,
missing or non-boolean `success`) does not report failure. -/
def clickResultReportsFailure (v : JValue) : Bool :=
  match v with
  | .obj resultMap =>
    match jLookup resultMap "success" with
    | some (.bool false) => true
    | _ => false
  | _ => false

/-- A pixel whose 16-bit channels come from 8-bit source channels: each
channel is `v * 257` for some 8-bit `v`, i.e. a multiple of 257 that is
at most 65535. -/
def Pixel.is8Bit (p : Pixel) : Prop :=
  p.r % 257 = 0 ∧ p.g % 257 = 0 ∧ p.b % 257 = 0 ∧ p.a % 257 = 0 ∧
  p.r ≤ 65535 ∧ p.g ≤ 65535 ∧ p.b ≤ 65535 ∧ p.a ≤ 65535

instance (p : Pixel) : Decidable p.is8Bit := by
  unfold Pixel.is8Bit; infer_instance

theorem stringAppendAssoc (a b c : String) : a ++ b ++ c = a ++ (b ++ c) := by
  cases a with
  | mk la =>
    cases b with
    | mk lb =>
      cases c with
      | mk lc =>
        show String.mk (la ++ lb ++ lc) = String.mk (la ++ (lb ++ lc))
        rw [List.append_assoc]

set_option maxRecDepth 4096 in
/-- Claim C3: for every input string, ParseSelector returns the
(strategy, value, isNative) triple of the first matching prefix in the
ordered table — xpath=, bare `//` or `(//`, text=, visible-text=, id=,
class=, tag=, link=, partial-link=, data-testid=, aria-label=, role= —
with the prefix stripped from the value except for the bare XPath forms;
every string matching no prefix yields (CSS selector, unchanged input,
native = true). -/
theorem c3_parse_selector_follows_spec_table (s : String) :
    ParseSelector s = parseSelectorSpec s := by
  by_cases h1 : goHasPrefix s "xpath="
  · simp [ParseSelector, parseSelectorSpec, specSelectorTable, firstRuleMatch,
      goTrimPrefix, h1]
  by_cases h2 : goHasPrefix s "//"
  · simp [ParseSelector, parseSelectorSpec, specSelectorTable, firstRuleMatch,
      goTrimPrefix, h1, h2]
  by_cases h3 : goHasPrefix s "(//"
  · simp [ParseSelector, parseSelectorSpec, specSelectorTable, firstRuleMatch,
      goTrimPrefix, h1, h2, h3]
  by_cases h4 : goHasPrefix s "text="
  · simp [ParseSelector, parseSelectorSpec, specSelectorTable, firstRuleMatch,
      goTrimPrefix, h1, h2, h3, h4]
  by_cases h5 : goHasPrefix s "visible-text="
  · simp [ParseSelector, parseSelectorSpec, specSelectorTable, firstRuleMatch,
      goTrimPrefix, h1, h2, h3, h4, h5]
  by_cases h6 : goHasPrefix s "id="
  · simp [ParseSelector, parseSelectorSpec, specSelectorTable, firstRuleMatch,
      goTrimPrefix, h1, h2, h3, h4, h5, h6]
  by_cases h7 : goHasPrefix s "class="
  · simp [ParseSelector, parseSelectorSpec, specSelectorTable, firstRuleMatch,
      goTrimPrefix, h1, h2, h3, h4, h5, h6, h7]
  by_cases h8 : goHasPrefix s "tag="
  · simp [ParseSelector, parseSelectorSpec, specSelectorTable, firstRuleMatch,
      goTrimPrefix, h1, h2, h3, h4, h5, h6, h7, h8]
  by_cases h9 : goHasPrefix s "link="
  · simp [ParseSelector, parseSelectorSpec, specSelectorTable, firstRuleMatch,
      goTrimPrefix, h1, h2, h3, h4, h5, h6, h7, h8, h9]
  by_cases h10 : goHasPrefix s "partial-link="
  · simp [ParseSelector, parseSelectorSpec, specSelectorTable, firstRuleMatch,
      goTrimPrefix, h1, h2, h3, h4, h5, h6, h7, h8, h9, h10]
  by_cases h11 : goHasPrefix s "data-testid="
  · simp [ParseSelector, parseSelectorSpec, specSelectorTable, firstRuleMatch,
      goTrimPrefix, h1, h2, h3, h4, h5, h6, h7, h8, h9, h10, h11]
  by_cases h12 : goHasPrefix s "aria-label="
  · simp [ParseSelector, parseSelectorSpec, specSelectorTable, firstRuleMatch,
      goTrimPrefix, h1, h2, h3, h4, h5, h6, h7, h8, h9, h10, h11, h12]
  by_cases h13 : goHasPrefix s "role="
  · simp [ParseSelector, parseSelectorSpec, specSelectorTable, firstRuleMatch,
      goTrimPrefix, h1, h2, h3, h4, h5, h6, h7, h8, h9, h10, h11, h12, h13]
  · simp [ParseSelector, parseSelectorSpec, specSelectorTable, firstRuleMatch,
      goTrimPrefix, h1, h2, h3, h4, h5, h6, h7, h8, h9, h10, h11, h12, h13]

theorem waitForSelectorLoop_ok_or_timeout (c : WebDriverClient)
    (script selector state : String) :
    ∀ (fuel : Nat) (h : HttpState),
      (waitForSelectorLoop c script selector state fuel h).1 = .ok () ∨
      (waitForSelectorLoop c script selector state fuel h).1 =
        .error ("timeout waiting for selector \x27" ++ selector ++ "\x27 to be " ++ state) := by
  intro fuel
  induction fuel with
  | zero => intro h; exact Or.inr rfl
  | succ n ih =>
    intro h
    simp only [waitForSelectorLoop]
    rcases hex : ExecuteScript c script [] h with ⟨res, h2⟩
    rcases res with e | v
    · exact ih h2
    · rcases v with _ | b | q | s | xs | fields
      · exact ih h2
      · rcases b with _ | _
        · exact ih h2
        · exact Or.inl rfl
      · exact ih h2
      · exact ih h2
      · exact ih h2
      · exact ih h2

/-- Claim C1 (counterexample): pollForCondition does abort on a
script-execution error — with a stub transport answering the first poll
tick with a 500 status, it returns the wrapped execution error rather
than continuing to poll, contradicting the claim that only deadline
expiry or a true result can end the wait. -/
theorem c1_poll_aborts_on_script_error :
    (pollForCondition ⟨"http://localhost:4444", "sess"⟩ domContentLoadedScript 300
      ⟨[.ok ⟨500, .null⟩, .ok ⟨200, .obj [("value", .bool true)]⟩], []⟩).1 =
      .error "failed to execute condition script: script execution failed with status: 500" :=
  rfl

/-- Claim C1 (amended): only WaitForSelector treats a script-execution
error on a poll tick as transient — its wait can only end satisfied or
timed out; pollForCondition (the domcontentloaded/networkidle navigation
wait) instead returns the execution error immediately, wrapped as
`failed to execute condition script`. -/
theorem c1_wait_engine_error_transience (c : WebDriverClient)
    (selector state script e : String) (fuel : Nat) (h h2 : HttpState)
    (hs : c.sessionID ≠ "")
    (hexec : ExecuteScript c script [] h = (.error e, h2)) :
    ((WaitForSelector c selector state fuel h).1 = .ok () ∨
     (WaitForSelector c selector state fuel h).1 =
       .error ("timeout waiting for selector \x27" ++ selector ++ "\x27 to be " ++ state)) ∧
    (pollForCondition c script (fuel + 1) h).1 =
      .error ("failed to execute condition script: " ++ e) := by
  constructor
  · simp only [WaitForSelector, hs, if_false, if_neg hs]
    exact waitForSelectorLoop_ok_or_timeout c (generateWaitScript selector state)
      selector state fuel h
  · simp only [pollForCondition, hexec]

theorem c1_wait_engine_error_transience_witness :
    (("sess" : String) ≠ "") ∧
    (((WaitForSelector ⟨"http://localhost:4444", "sess"⟩ "#btn" "visible" 1
        ⟨[.ok ⟨500, .null⟩], []⟩).1 = .ok () ∨
      (WaitForSelector ⟨"http://localhost:4444", "sess"⟩ "#btn" "visible" 1
        ⟨[.ok ⟨500, .null⟩], []⟩).1 =
        .error ("timeout waiting for selector \x27" ++ "#btn" ++ "\x27 to be " ++ "visible")) ∧
     (pollForCondition ⟨"http://localhost:4444", "sess"⟩ domContentLoadedScript (1 + 1)
        ⟨[.ok ⟨500, .null⟩], []⟩).1 =
       .error ("failed to execute condition script: " ++
         "script execution failed with status: 500")) := by
  constructor
  · decide
  · exact c1_wait_engine_error_transience ⟨"http://localhost:4444", "sess"⟩
      "#btn" "visible" domContentLoadedScript
      "script execution failed with status: 500" 1
      ⟨[.ok ⟨500, .null⟩], []⟩
      (ExecuteScript ⟨"http://localhost:4444", "sess"⟩ domContentLoadedScript []
        ⟨[.ok ⟨500, .null⟩], []⟩).2
      (by decide) rfl

/-- Claim C2: every Protocol Client operation other than CreateSession —
Navigate, GetCurrentURL, GetTitle, ExecuteScript, FindElement and
FindAllElements via the native path, ClickElement, SendKeys,
TakeScreenshot, SetWindowSize, GetAllCookies, WaitForSelector — fails
immediately with the no-active-session error when the stored session
identifier is empty, and issues no HTTP request (the transport state is
returned untouched). -/
theorem c2_empty_session_fails_without_network (c : WebDriverClient)
    (h : HttpState) (codec : PngCodec)
    (url selector state elementID text script strategy value : String)
    (args : List JValue) (options : Option NavigateOptions) (fuel : Nat)
    (width height : Int)
    (hs : c.sessionID = "") :
    Navigate c url options fuel h = (.error "no active session", h) ∧
    GetCurrentURL c h = (.error "no active session", h) ∧
    GetTitle c h = (.error "no active session", h) ∧
    ExecuteScript c script args h = (.error "no active session", h) ∧
    findElementNative c strategy value h = (.error "no active session", h) ∧
    findAllElementsNative c strategy value h = (.error "no active session", h) ∧
    ((ParseSelector selector).IsNative = true →
      FindElement c selector h = (.error "no active session", h)) ∧
    ((ParseSelector selector).IsNative = true →
      FindAllElements c selector h = (.error "no active session", h)) ∧
    ClickElement c elementID h = (.error "no active session", h) ∧
    SendKeys c elementID text h = (.error "no active session", h) ∧
    TakeScreenshot c codec h = (.error "no active session", h) ∧
    SetWindowSize c width height h = (.error "no active session", h) ∧
    GetAllCookies c h = (.error "no active session", h) ∧
    WaitForSelector c selector state fuel h = (.error "no active session", h) := by
  refine ⟨?_, ?_, ?_, ?_, ?_, ?_, ?_, ?_, ?_, ?_, ?_, ?_, ?_, ?_⟩
  · simp [Navigate, hs]
  · simp [GetCurrentURL, hs]
  · simp [GetTitle, hs]
  · simp [ExecuteScript, hs]
  · simp [findElementNative, hs]
  · simp [findAllElementsNative, hs]
  · intro hn
    simp [FindElement, FindElementWithStrategy, hn, findElementNative, hs]
  · intro hn
    simp [FindAllElements, hn, findAllElementsNative, hs]
  · simp [ClickElement, hs]
  · simp [SendKeys, hs]
  · simp [TakeScreenshot, hs]
  · simp [SetWindowSize, hs]
  · simp [GetAllCookies, hs]
  · simp [WaitForSelector, hs]

theorem c2_empty_session_fails_without_network_witness :
    Navigate ⟨"http://localhost:4444", ""⟩ "https://example.com" none 300 ⟨[], []⟩ =
      (.error "no active session", ⟨[], []⟩) ∧
    GetCurrentURL ⟨"http://localhost:4444", ""⟩ ⟨[], []⟩ =
      (.error "no active session", ⟨[], []⟩) ∧
    GetTitle ⟨"http://localhost:4444", ""⟩ ⟨[], []⟩ =
      (.error "no active session", ⟨[], []⟩) ∧
    ExecuteScript ⟨"http://localhost:4444", ""⟩ "return 1" [] ⟨[], []⟩ =
      (.error "no active session", ⟨[], []⟩) ∧
    FindElement ⟨"http://localhost:4444", ""⟩ "body" ⟨[], []⟩ =
      (.error "no active session", ⟨[], []⟩) ∧
    FindAllElements ⟨"http://localhost:4444", ""⟩ "body" ⟨[], []⟩ =
      (.error "no active session", ⟨[], []⟩) ∧
    ClickElement ⟨"http://localhost:4444", ""⟩ "elem-1" ⟨[], []⟩ =
      (.error "no active session", ⟨[], []⟩) ∧
    WaitForSelector ⟨"http://localhost:4444", ""⟩ "body" "visible" 300 ⟨[], []⟩ =
      (.error "no active session", ⟨[], []⟩) := by
  have hmain := c2_empty_session_fails_without_network
    ⟨"http://localhost:4444", ""⟩ ⟨[], []⟩
    ⟨fun _ => .error "unused", fun _ => [], fun _ => .error "unused"⟩
    "https://example.com" "body" "visible" "elem-1" "abc" "return 1"
    "css selector" "body" [] none 300 800 600 rfl
  obtain ⟨hnav, hurl, htitle, hexec, -, -, hfind, hfindall, hclick, -, -, -, -, hwait⟩ :=
    hmain
  exact ⟨hnav, hurl, htitle, hexec, hfind (by decide), hfindall (by decide),
    hclick, hwait⟩

/-- Claim C5 (counterexample): a failed deletion attempt does not always
clear the stored session identifier — when the DELETE exchange fails at
the transport level, DeleteSession swallows the failure (and issues the
request, as the non-empty trace shows) but leaves the session id in
place. -/
theorem c5_session_kept_on_transport_error :
    (DeleteSession ⟨"http://localhost:4444", "abc"⟩
      ⟨[.error "connection refused"], []⟩).client.sessionID = "abc" ∧
    (DeleteSession ⟨"http://localhost:4444", "abc"⟩
      ⟨[.error "connection refused"], []⟩).result = .ok () ∧
    (DeleteSession ⟨"http://localhost:4444", "abc"⟩
      ⟨[.error "connection refused"], []⟩).http.trace =
      [⟨"DELETE", "http://localhost:4444" ++ "/session/" ++ "abc", none⟩] :=
  ⟨rfl, rfl, rfl⟩

/-- Claim C5 (amended): DeleteSession never returns an error; with an
empty session identifier it is a no-op that emits a warning-level notice;
after a deletion attempt that received a response — 2xx or not — the
stored session identifier is cleared; after a transport-level failure
(and likewise Go's request-construction failure, which the model cannot
produce) the attempt is only warned about and the session identifier is
left unchanged. -/
theorem c5_delete_session_best_effort (c : WebDriverClient) (h : HttpState) :
    (DeleteSession c h).result = .ok () ∧
    (c.sessionID = "" →
      DeleteSession c h =
        ⟨c, .ok (), h, ["WARN: attempted to delete session, but no active session exists"]⟩) ∧
    (∀ resp rest, c.sessionID ≠ "" → h.queue = .ok resp :: rest →
      (DeleteSession c h).client.sessionID = "") ∧
    (∀ e rest, c.sessionID ≠ "" → h.queue = .error e :: rest →
      (DeleteSession c h).client.sessionID = c.sessionID ∧
      (DeleteSession c h).warnings = ["WARN: failed to delete session: " ++ e]) := by
  refine ⟨?_, ?_, ?_, ?_⟩
  · by_cases hsid : c.sessionID = ""
    · simp [DeleteSession, hsid]
    · rcases hq : h.queue with _ | ⟨r, rest⟩
      · simp [DeleteSession, hsid, sendRequest, hq]
      · rcases r with e | resp
        · simp [DeleteSession, hsid, sendRequest, hq]
        · by_cases hst : resp.status = 200
          · simp [DeleteSession, hsid, sendRequest, hq, hst]
          · simp [DeleteSession, hsid, sendRequest, hq, hst]
  · intro hsid
    simp [DeleteSession, hsid]
  · intro resp rest hsid hq
    by_cases hst : resp.status = 200
    · simp [DeleteSession, hsid, sendRequest, hq, hst]
    · simp [DeleteSession, hsid, sendRequest, hq, hst]
  · intro e rest hsid hq
    simp [DeleteSession, hsid, sendRequest, hq]

theorem c5_delete_session_best_effort_witness :
    (DeleteSession ⟨"http://localhost:4444", ""⟩ ⟨[], []⟩).result = .ok () ∧
    DeleteSession ⟨"http://localhost:4444", ""⟩ ⟨[], []⟩ =
      ⟨⟨"http://localhost:4444", ""⟩, .ok (), ⟨[], []⟩,
        ["WARN: attempted to delete session, but no active session exists"]⟩ ∧
    (DeleteSession ⟨"http://localhost:4444", "abc"⟩
      ⟨[.ok ⟨404, .null⟩], []⟩).client.sessionID = "" ∧
    (DeleteSession ⟨"http://localhost:4444", "abc"⟩
      ⟨[.error "boom"], []⟩).client.sessionID = "abc" := by
  refine ⟨(c5_delete_session_best_effort ⟨"http://localhost:4444", ""⟩ ⟨[], []⟩).1,
    (c5_delete_session_best_effort ⟨"http://localhost:4444", ""⟩ ⟨[], []⟩).2.1 rfl,
    (c5_delete_session_best_effort ⟨"http://localhost:4444", "abc"⟩
      ⟨[.ok ⟨404, .null⟩], []⟩).2.2.1 ⟨404, .null⟩ [] (by decide) rfl,
    ?_⟩
  have hkept := (c5_delete_session_best_effort ⟨"http://localhost:4444", "abc"⟩
    ⟨[.error "boom"], []⟩).2.2.2 "boom" [] (by decide) rfl
  exact hkept.1

/-- Claim C6: on a selector matching nothing, FindAllElements returns an
empty collection and no error for both strategy families, while
FindElement returns the element-not-found error: the custom single-result
lookup errors when the generated script yields null; the custom
all-results lookup returns the empty list when the script yields null or
any non-array value; the native single lookup errors when the 200
response carries an element with neither reference key; the native
plural lookup returns the empty list on an empty result array. -/
theorem c6_empty_match_semantics (c : WebDriverClient) (selector : String)
    (h : HttpState) (resp : HTTPResponse)
    (rest : List (Except String HTTPResponse)) (w : JValue) :
    ((ParseSelector selector).IsNative = false →
      (ExecuteScript c (generateSelectorScript (ParseSelector selector).Strategy
        (ParseSelector selector).Value) [] h).1 = .ok .null →
      (FindElement c selector h).1 = .error "element not found") ∧
    ((ParseSelector selector).IsNative = false →
      (ExecuteScript c (generateAllSelectorScript (ParseSelector selector).Strategy
        (ParseSelector selector).Value) [] h).1 = .ok w →
      (w = .null ∨ ∀ xs, w ≠ .arr xs) →
      (FindAllElements c selector h).1 = .ok []) ∧
    ((ParseSelector selector).IsNative = true → c.sessionID ≠ "" →
      h.queue = .ok resp :: rest → resp.status = 200 →
      decodeElementValue resp.body = .ok ("", "") →
      (FindElement c selector h).1 = .error "element not found") ∧
    ((ParseSelector selector).IsNative = true → c.sessionID ≠ "" →
      h.queue = .ok resp :: rest → resp.status = 200 →
      decodeElementsValue resp.body = .ok [] →
      (FindAllElements c selector h).1 = .ok []) := by
  refine ⟨?_, ?_, ?_, ?_⟩
  · intro hnat hex
    rcases hE : ExecuteScript c (generateSelectorScript (ParseSelector selector).Strategy
      (ParseSelector selector).Value) [] h with ⟨res, h2⟩
    rw [hE] at hex
    simp only at hex
    subst hex
    simp [FindElement, FindElementWithStrategy, hnat, findElementCustom, hE]
  · intro hnat hex hshape
    rcases hE : ExecuteScript c (generateAllSelectorScript (ParseSelector selector).Strategy
      (ParseSelector selector).Value) [] h with ⟨res, h2⟩
    rw [hE] at hex
    simp only at hex
    subst hex
    rcases hshape with hnull | harr
    · subst hnull
      simp [FindAllElements, hnat, findAllElementsCustom, hE]
    · rcases w with _ | b | q | s | xs | fields
      · simp [FindAllElements, hnat, findAllElementsCustom, hE]
      · simp [FindAllElements, hnat, findAllElementsCustom, hE]
      · simp [FindAllElements, hnat, findAllElementsCustom, hE]
      · simp [FindAllElements, hnat, findAllElementsCustom, hE]
      · exact absurd rfl (harr xs)
      · simp [FindAllElements, hnat, findAllElementsCustom, hE]
  · intro hnat hsid hq hst hdec
    simp [FindElement, FindElementWithStrategy, hnat, findElementNative, hsid,
      sendRequest, hq, hst, hdec]
  · intro hnat hsid hq hst hdec
    simp [FindAllElements, hnat, findAllElementsNative, hsid, sendRequest, hq,
      hst, hdec]

theorem c6_empty_match_semantics_witness :
    ((FindElement ⟨"http://localhost:4444", "sess"⟩ "text=Nope"
      ⟨[.ok ⟨200, .obj [("value", .null)]⟩], []⟩).1 = .error "element not found") ∧
    ((FindAllElements ⟨"http://localhost:4444", "sess"⟩ "text=Nope"
      ⟨[.ok ⟨200, .obj [("value", .null)]⟩], []⟩).1 = .ok []) ∧
    ((FindElement ⟨"http://localhost:4444", "sess"⟩ "#missing"
      ⟨[.ok ⟨200, .obj [("value", .obj [])]⟩], []⟩).1 = .error "element not found") ∧
    ((FindAllElements ⟨"http://localhost:4444", "sess"⟩ "#missing"
      ⟨[.ok ⟨200, .obj [("value", .arr [])]⟩], []⟩).1 = .ok []) := by
  refine ⟨?_, ?_, ?_, ?_⟩
  · exact (c6_empty_match_semantics ⟨"http://localhost:4444", "sess"⟩ "text=Nope"
      ⟨[.ok ⟨200, .obj [("value", .null)]⟩], []⟩ ⟨200, .obj [("value", .null)]⟩
      [] .null).1 (by decide) rfl
  · exact (c6_empty_match_semantics ⟨"http://localhost:4444", "sess"⟩ "text=Nope"
      ⟨[.ok ⟨200, .obj [("value", .null)]⟩], []⟩ ⟨200, .obj [("value", .null)]⟩
      [] .null).2.1 (by decide) rfl (Or.inl rfl)
  · exact (c6_empty_match_semantics ⟨"http://localhost:4444", "sess"⟩ "#missing"
      ⟨[.ok ⟨200, .obj [("value", .obj [])]⟩], []⟩ ⟨200, .obj [("value", .obj [])]⟩
      [] .null).2.2.1 (by decide) (by decide) rfl rfl rfl
  · exact (c6_empty_match_semantics ⟨"http://localhost:4444", "sess"⟩ "#missing"
      ⟨[.ok ⟨200, .obj [("value", .arr [])]⟩], []⟩ ⟨200, .obj [("value", .arr [])]⟩
      [] .null).2.2.2 (by decide) (by decide) rfl rfl rfl

/-- Claim C9: Navigate with an active session and an unrecognized,
non-empty waitUntil value is not atomic in its invalid-argument failure —
the navigate POST is issued to the remote endpoint (it appears in the
trace and consumes the stub's 200 response, so the navigation side effect
has occurred) before the invalid-argument error is returned.  The empty
waitUntil string is outside the recognized set but silently defaults to
`load`, so it is excluded. -/
theorem c9_navigate_invalid_wait_until_not_atomic (c : WebDriverClient)
    (url w : String) (fuel : Nat) (h : HttpState) (resp : HTTPResponse)
    (rest : List (Except String HTTPResponse))
    (hs : c.sessionID ≠ "") (hw0 : w ≠ "") (hw1 : w ≠ "load")
    (hw2 : w ≠ "domcontentloaded") (hw3 : w ≠ "networkidle")
    (hq : h.queue = .ok resp :: rest) (hst : resp.status = 200) :
    Navigate c url (some ⟨w⟩) fuel h =
      (.error ("invalid waitUntil option: " ++ w),
       ⟨rest, h.trace ++
         [⟨"POST", c.baseURL ++ "/session/" ++ c.sessionID ++ "/url",
           some (.obj [("url", .str url)])⟩]⟩) := by
  simp [Navigate, hs, hw0, hw1, hw2, hw3, sendRequest, hq, hst]

theorem c9_navigate_invalid_wait_until_not_atomic_witness :
    Navigate ⟨"http://localhost:4444", "sess"⟩ "https://example.com"
      (some ⟨"immediate"⟩) 300 ⟨[.ok ⟨200, .null⟩], []⟩ =
      (.error ("invalid waitUntil option: " ++ "immediate"),
       ⟨[], [] ++
         [⟨"POST", "http://localhost:4444" ++ "/session/" ++ "sess" ++ "/url",
           some (.obj [("url", .str "https://example.com")])⟩]⟩) :=
  c9_navigate_invalid_wait_until_not_atomic ⟨"http://localhost:4444", "sess"⟩
    "https://example.com" "immediate" 300 ⟨[.ok ⟨200, .null⟩], []⟩ ⟨200, .null⟩ []
    (by decide) (by decide) (by decide) (by decide) (by decide) rfl rfl

/-- Claim C10: ClickElement succeeds whenever the click script executes
without a protocol error and its decoded result is anything other than a
map whose `success` key is the boolean false — a null result, a non-map
result, or a map without a boolean `success` key is silently treated as a
successful click. -/
theorem c10_click_element_success_semantics (c : WebDriverClient)
    (elementID : String) (h : HttpState) (v : JValue)
    (hs : c.sessionID ≠ "")
    (hex : (ExecuteScript c clickScript
      [.obj [("element-6066-11e4-a52e-4f735466cecf", .str elementID)]] h).1 = .ok v) :
    (ClickElement c elementID h).1 = .ok () ↔ clickResultReportsFailure v = false := by
  rcases hE : ExecuteScript c clickScript
    [.obj [("element-6066-11e4-a52e-4f735466cecf", .str elementID)]] h with ⟨res, h2⟩
  rw [hE] at hex
  simp only at hex
  subst hex
  rcases v with _ | b | q | s | xs | fields
  · simp [ClickElement, hs, hE, clickResultReportsFailure]
  · simp [ClickElement, hs, hE, clickResultReportsFailure]
  · simp [ClickElement, hs, hE, clickResultReportsFailure]
  · simp [ClickElement, hs, hE, clickResultReportsFailure]
  · simp [ClickElement, hs, hE, clickResultReportsFailure]
  · rcases hsuc : jLookup fields "success" with _ | sv
    · simp [ClickElement, hs, hE, clickResultReportsFailure, hsuc]
    · rcases sv with _ | b | q | s | xs | innerFields
      · simp [ClickElement, hs, hE, clickResultReportsFailure, hsuc]
      · rcases b with _ | _
        · simp [ClickElement, hs, hE, clickResultReportsFailure, hsuc]
        · simp [ClickElement, hs, hE, clickResultReportsFailure, hsuc]
      · simp [ClickElement, hs, hE, clickResultReportsFailure, hsuc]
      · simp [ClickElement, hs, hE, clickResultReportsFailure, hsuc]
      · simp [ClickElement, hs, hE, clickResultReportsFailure, hsuc]
      · simp [ClickElement, hs, hE, clickResultReportsFailure, hsuc]

theorem c10_click_element_success_semantics_witness :
    (ClickElement ⟨"http://localhost:4444", "sess"⟩ "elem-1"
      ⟨[.ok ⟨200, .obj [("value", .null)]⟩], []⟩).1 = .ok () ∧
    (ClickElement ⟨"http://localhost:4444", "sess"⟩ "elem-1"
      ⟨[.ok ⟨200, .obj [("value", .obj [("info", .str "x")])]⟩], []⟩).1 = .ok () := by
  constructor
  · exact (c10_click_element_success_semantics ⟨"http://localhost:4444", "sess"⟩
      "elem-1" ⟨[.ok ⟨200, .obj [("value", .null)]⟩], []⟩ .null
      (by decide) rfl).mpr rfl
  · exact (c10_click_element_success_semantics ⟨"http://localhost:4444", "sess"⟩
      "elem-1" ⟨[.ok ⟨200, .obj [("value", .obj [("info", .str "x")])]⟩], []⟩
      (.obj [("info", .str "x")]) (by decide) rfl).mpr rfl

theorem countOverPixels_congr {w h : Nat} {f g : Nat → Nat → Bool}
    (hfg : ∀ x y, x < w → y < h → f x y = g x y) :
    countOverPixels w h f = countOverPixels w h g := by
  unfold countOverPixels
  congr 1
  refine List.map_congr_left ?_
  intro y hy
  rw [List.mem_range] at hy
  congr 1
  refine List.map_congr_left ?_
  intro x hx
  rw [List.mem_range] at hx
  rw [hfg x y hx hy]

theorem countOverPixels_false (w h : Nat) :
    countOverPixels w h (fun _ _ => false) = 0 := by
  simp [countOverPixels]

theorem chanExceeds_255_iff (a b : Nat) (ha : a % 257 = 0) (hb : b % 257 = 0) :
    (255 < abs32 ((a : Int) - b)) ↔ a ≠ b := by
  unfold abs32; split <;> omega

theorem chanExceeds_zero_iff (a b : Nat) :
    (0 < abs32 ((a : Int) - b)) ↔ a ≠ b := by
  unfold abs32; split <;> omega

theorem chanExceeds_65535_false (a b : Nat) (ha : a ≤ 65535) (hb : b ≤ 65535) :
    ¬(65535 < abs32 ((a : Int) - b)) := by
  unfold abs32; split <;> omega

theorem pixelExceeds_zero (p q : Pixel) : pixelExceeds p q 0 = decide (p ≠ q) := by
  have h0 : toInt32 0 = 0 := by decide
  rw [Bool.eq_iff_iff]
  rcases p with ⟨pr, pg, pb, pa⟩
  rcases q with ⟨qr, qg, qb, qa⟩
  simp only [pixelExceeds, h0, Bool.or_eq_true, decide_eq_true_iff, ne_eq,
    Pixel.mk.injEq, chanExceeds_zero_iff]
  tauto

theorem pixelExceeds_255 (p q : Pixel) (hp : p.is8Bit) (hq : q.is8Bit) :
    pixelExceeds p q 255 = decide (p ≠ q) := by
  have h255 : toInt32 255 = 255 := by decide
  rw [Bool.eq_iff_iff]
  rcases p with ⟨pr, pg, pb, pa⟩
  rcases q with ⟨qr, qg, qb, qa⟩
  obtain ⟨hpr, hpg, hpb, hpa, -, -, -, -⟩ := hp
  obtain ⟨hqr, hqg, hqb, hqa, -, -, -, -⟩ := hq
  simp only [pixelExceeds, h255, Bool.or_eq_true, decide_eq_true_iff, ne_eq,
    Pixel.mk.injEq] at *
  rw [chanExceeds_255_iff _ _ hpr hqr, chanExceeds_255_iff _ _ hpg hqg,
    chanExceeds_255_iff _ _ hpb hqb, chanExceeds_255_iff _ _ hpa hqa]
  tauto

theorem pixelExceeds_65535 (p q : Pixel) (hp : p.is8Bit) (hq : q.is8Bit) :
    pixelExceeds p q 65535 = false := by
  have h65535 : toInt32 65535 = 65535 := by decide
  rcases p with ⟨pr, pg, pb, pa⟩
  rcases q with ⟨qr, qg, qb, qa⟩
  obtain ⟨-, -, -, -, hpr, hpg, hpb, hpa⟩ := hp
  obtain ⟨-, -, -, -, hqr, hqg, hqb, hqa⟩ := hq
  simp only [pixelExceeds, h65535, Bool.or_eq_false_iff, decide_eq_false_iff_not]
  exact ⟨⟨⟨chanExceeds_65535_false _ _ hpr hqr, chanExceeds_65535_false _ _ hpg hqg⟩,
    chanExceeds_65535_false _ _ hpb hqb⟩, chanExceeds_65535_false _ _ hpa hqa⟩

theorem normalizeDims_of_eq (img1 img2 : Image) (hw : img1.width = img2.width)
    (hh : img1.height = img2.height) : normalizeDims img1 img2 = (img1, img2) := by
  simp [normalizeDims, hw, hh]

/-- Claim C4 (counterexample): with threshold 255, PixelDifferenceCount
on two equal-dimension images differing in one pixel's red channel by a
single 8-bit step is 1, not 0 — the channel deltas are compared on the
16-bit `RGBA()` scale, where an 8-bit step is 257 > 255. -/
theorem c4_threshold_255_still_counts :
    PixelDifferenceCount ⟨1, 1, fun _ _ => ⟨257, 0, 0, 65535⟩⟩
      ⟨1, 1, fun _ _ => ⟨0, 0, 0, 65535⟩⟩ 255 = 1 := by
  decide

/-- Claim C4 (amended): for equal-dimension images decoded from 8-bit
sources (every 16-bit channel a multiple of 257, at most 65535), a pixel
is counted iff some channel's absolute difference on the 16-bit `RGBA()`
scale exceeds the caller-supplied threshold.  Hence threshold 0 counts
exactly the pixels with any differing channel — and so does threshold
255, since one 8-bit step is a 16-bit delta of 257; only thresholds of
65535 and above count nothing. -/
theorem c4_pixel_difference_count_16bit_scale (img1 img2 : Image)
    (hw : img1.width = img2.width) (hh : img1.height = img2.height)
    (h8 : ∀ x y, x < img1.width → y < img1.height →
      (img1.pix x y).is8Bit ∧ (img2.pix x y).is8Bit) :
    PixelDifferenceCount img1 img2 0 =
      countOverPixels img1.width img1.height
        (fun x y => decide (img1.pix x y ≠ img2.pix x y)) ∧
    PixelDifferenceCount img1 img2 255 =
      countOverPixels img1.width img1.height
        (fun x y => decide (img1.pix x y ≠ img2.pix x y)) ∧
    PixelDifferenceCount img1 img2 65535 = 0 := by
  have hat1 : ∀ x y, x < img1.width → y < img1.height → img1.at x y = img1.pix x y := by
    intro x y hx hy
    simp [Image.at, hx, hy]
  have hat2 : ∀ x y, x < img1.width → y < img1.height → img2.at x y = img2.pix x y := by
    intro x y hx hy
    simp [Image.at, hw ▸ hx, hh ▸ hy]
  refine ⟨?_, ?_, ?_⟩
  · unfold PixelDifferenceCount
    rw [normalizeDims_of_eq img1 img2 hw hh]
    exact countOverPixels_congr (fun x y hx hy => by
      rw [hat1 x y hx hy, hat2 x y hx hy, pixelExceeds_zero])
  · unfold PixelDifferenceCount
    rw [normalizeDims_of_eq img1 img2 hw hh]
    exact countOverPixels_congr (fun x y hx hy => by
      rw [hat1 x y hx hy, hat2 x y hx hy,
        pixelExceeds_255 _ _ (h8 x y hx hy).1 (h8 x y hx hy).2])
  · unfold PixelDifferenceCount
    rw [normalizeDims_of_eq img1 img2 hw hh]
    rw [countOverPixels_congr (g := fun _ _ => false) (fun x y hx hy => by
      rw [hat1 x y hx hy, hat2 x y hx hy,
        pixelExceeds_65535 _ _ (h8 x y hx hy).1 (h8 x y hx hy).2])]
    exact countOverPixels_false _ _

theorem c4_pixel_difference_count_16bit_scale_witness :
    PixelDifferenceCount ⟨1, 1, fun _ _ => ⟨257, 0, 0, 65535⟩⟩
      ⟨1, 1, fun _ _ => ⟨0, 0, 0, 65535⟩⟩ 0 =
      countOverPixels 1 1 (fun x y =>
        decide ((⟨1, 1, fun _ _ => ⟨257, 0, 0, 65535⟩⟩ : Image).pix x y ≠
          (⟨1, 1, fun _ _ => ⟨0, 0, 0, 65535⟩⟩ : Image).pix x y)) ∧
    PixelDifferenceCount ⟨1, 1, fun _ _ => ⟨257, 0, 0, 65535⟩⟩
      ⟨1, 1, fun _ _ => ⟨0, 0, 0, 65535⟩⟩ 255 =
      countOverPixels 1 1 (fun x y =>
        decide ((⟨1, 1, fun _ _ => ⟨257, 0, 0, 65535⟩⟩ : Image).pix x y ≠
          (⟨1, 1, fun _ _ => ⟨0, 0, 0, 65535⟩⟩ : Image).pix x y)) ∧
    PixelDifferenceCount ⟨1, 1, fun _ _ => ⟨257, 0, 0, 65535⟩⟩
      ⟨1, 1, fun _ _ => ⟨0, 0, 0, 65535⟩⟩ 65535 = 0 :=
  c4_pixel_difference_count_16bit_scale
    ⟨1, 1, fun _ _ => ⟨257, 0, 0, 65535⟩⟩ ⟨1, 1, fun _ _ => ⟨0, 0, 0, 65535⟩⟩
    rfl rfl (fun _ _ _ _ =>
      ⟨(by decide : (⟨257, 0, 0, 65535⟩ : Pixel).is8Bit),
       (by decide : (⟨0, 0, 0, 65535⟩ : Pixel).is8Bit)⟩)

theorem sumOverPixels_congr {w h : Nat} {f g : Nat → Nat → Rat}
    (hfg : ∀ x y, x < w → y < h → f x y = g x y) :
    sumOverPixels w h f = sumOverPixels w h g := by
  unfold sumOverPixels
  congr 1
  refine List.map_congr_left ?_
  intro y hy
  rw [List.mem_range] at hy
  congr 1
  refine List.map_congr_left ?_
  intro x hx
  rw [List.mem_range] at hx
  rw [hfg x y hx hy]

theorem sumOverPixels_const (w h : Nat) (cst : Rat) :
    sumOverPixels w h (fun _ _ => cst) = ((w * h : Nat) : Rat) * cst := by
  simp [sumOverPixels, List.sum_replicate, nsmul_eq_mul]
  ring

theorem sumOverPixels_nonneg (w h : Nat) (f : Nat → Nat → Rat)
    (hf : ∀ x y, 0 ≤ f x y) : 0 ≤ sumOverPixels w h f := by
  unfold sumOverPixels
  apply List.sum_nonneg
  intro a ha
  rw [List.mem_map] at ha
  obtain ⟨y, -, rfl⟩ := ha
  apply List.sum_nonneg
  intro b hb
  rw [List.mem_map] at hb
  obtain ⟨x, -, rfl⟩ := hb
  exact hf x y

theorem squaredError_self (p : Pixel) : squaredError p p = 0 := by
  simp [squaredError]

theorem squaredError_nonneg (p q : Pixel) : 0 ≤ squaredError p q := by
  simp only [squaredError]
  have h1 := mul_self_nonneg (((p.r / 256 : Nat) : Rat) - ((q.r / 256 : Nat) : Rat))
  have h2 := mul_self_nonneg (((p.g / 256 : Nat) : Rat) - ((q.g / 256 : Nat) : Rat))
  have h3 := mul_self_nonneg (((p.b / 256 : Nat) : Rat) - ((q.b / 256 : Nat) : Rat))
  have h4 := mul_self_nonneg (((p.a / 256 : Nat) : Rat) - ((q.a / 256 : Nat) : Rat))
  linarith

theorem squaredError_maxdiff :
    squaredError ⟨0, 0, 0, 0⟩ ⟨65535, 65535, 65535, 65535⟩ = 260100 := by
  norm_num [squaredError]

/-- Claim C7: CompareImages of an image with itself is exactly 1; on two
equal-dimension images in which every pixel differs maximally (0 versus
255 on all four 8-bit channels, i.e. 0 versus 65535 on the 16-bit scale)
it is exactly 0; and on any two images — equal dimensions or not, the
larger being rescaled by nearest-neighbor before comparison — the score
`1 - min(MSE/65025, 1)` lies in [0, 1] and no error can arise after
decoding. -/
theorem c7_compare_images_score (img img1 img2 : Image)
    (hw : img1.width = img2.width) (hh : img1.height = img2.height)
    (hpos : 0 < img1.width * img1.height)
    (hmax : ∀ x y, x < img1.width → y < img1.height →
      img1.pix x y = ⟨0, 0, 0, 0⟩ ∧ img2.pix x y = ⟨65535, 65535, 65535, 65535⟩) :
    CompareImages img img = 1 ∧
    CompareImages img1 img2 = 0 ∧
    (∀ a b : Image, 0 ≤ CompareImages a b ∧ CompareImages a b ≤ 1) := by
  refine ⟨?_, ?_, ?_⟩
  · simp only [CompareImages, normalizeDims_of_eq img img rfl rfl]
    have htot : totalSquaredError img img = 0 := by
      unfold totalSquaredError
      rw [sumOverPixels_congr (g := fun _ _ => (0 : Rat))
        (fun x y _ _ => squaredError_self _), sumOverPixels_const]
      ring
    rw [htot, zero_div, zero_div, min_eq_left (by norm_num : (0 : Rat) ≤ 1)]
    norm_num
  · have hat1 : ∀ x y, x < img1.width → y < img1.height →
        img1.at x y = img1.pix x y := by
      intro x y hx hy
      simp [Image.at, hx, hy]
    have hat2 : ∀ x y, x < img1.width → y < img1.height →
        img2.at x y = img2.pix x y := by
      intro x y hx hy
      simp [Image.at, hw ▸ hx, hh ▸ hy]
    simp only [CompareImages, normalizeDims_of_eq img1 img2 hw hh]
    have htot : totalSquaredError img1 img2 =
        ((img1.width * img1.height : Nat) : Rat) * 260100 := by
      unfold totalSquaredError
      rw [sumOverPixels_congr (g := fun _ _ => (260100 : Rat)) (fun x y hx hy => by
        rw [hat1 x y hx hy, hat2 x y hx hy, (hmax x y hx hy).1, (hmax x y hx hy).2,
          squaredError_maxdiff]), sumOverPixels_const]
    rw [htot]
    have hnne : ((img1.width * img1.height : Nat) : Rat) ≠ 0 :=
      Nat.cast_ne_zero.mpr hpos.ne'
    have hquot : ((img1.width * img1.height : Nat) : Rat) * 260100 /
        (((img1.width * img1.height : Nat) : Rat) * 4) = 65025 := by
      rw [mul_div_mul_left (260100 : Rat) (4 : Rat) hnne]
      norm_num
    rw [hquot]
    norm_num
  · intro a b
    simp only [CompareImages]
    have h0 : 0 ≤ totalSquaredError (normalizeDims a b).1 (normalizeDims a b).2 :=
      sumOverPixels_nonneg _ _ _ (fun x y => squaredError_nonneg _ _)
    have hmse : 0 ≤ totalSquaredError (normalizeDims a b).1 (normalizeDims a b).2 /
        ((((normalizeDims a b).1.width * (normalizeDims a b).1.height : Nat) : Rat) * 4) :=
      div_nonneg h0 (by positivity)
    have hq : 0 ≤ totalSquaredError (normalizeDims a b).1 (normalizeDims a b).2 /
        ((((normalizeDims a b).1.width * (normalizeDims a b).1.height : Nat) : Rat) * 4) /
        (255 * 255) :=
      div_nonneg hmse (by norm_num)
    constructor
    · have hub := min_le_right (totalSquaredError (normalizeDims a b).1
        (normalizeDims a b).2 /
        ((((normalizeDims a b).1.width * (normalizeDims a b).1.height : Nat) : Rat) * 4) /
        (255 * 255)) (1 : Rat)
      linarith
    · have hlb := le_min hq (by norm_num : (0 : Rat) ≤ 1)
      linarith

theorem c7_compare_images_score_witness :
    CompareImages ⟨1, 1, fun _ _ => ⟨257, 514, 0, 65535⟩⟩
      ⟨1, 1, fun _ _ => ⟨257, 514, 0, 65535⟩⟩ = 1 ∧
    CompareImages ⟨1, 1, fun _ _ => ⟨0, 0, 0, 0⟩⟩
      ⟨1, 1, fun _ _ => ⟨65535, 65535, 65535, 65535⟩⟩ = 0 ∧
    (0 ≤ CompareImages ⟨2, 1, fun _ _ => ⟨257, 514, 0, 65535⟩⟩
        ⟨1, 3, fun _ _ => ⟨0, 0, 0, 0⟩⟩ ∧
      CompareImages ⟨2, 1, fun _ _ => ⟨257, 514, 0, 65535⟩⟩
        ⟨1, 3, fun _ _ => ⟨0, 0, 0, 0⟩⟩ ≤ 1) := by
  have hmain := c7_compare_images_score
    ⟨1, 1, fun _ _ => ⟨257, 514, 0, 65535⟩⟩
    ⟨1, 1, fun _ _ => ⟨0, 0, 0, 0⟩⟩
    ⟨1, 1, fun _ _ => ⟨65535, 65535, 65535, 65535⟩⟩
    rfl rfl (by decide)
    (fun _ _ _ _ => ⟨rfl, rfl⟩)
  exact ⟨hmain.1, hmain.2.1,
    hmain.2.2 ⟨2, 1, fun _ _ => ⟨257, 514, 0, 65535⟩⟩ ⟨1, 3, fun _ _ => ⟨0, 0, 0, 0⟩⟩⟩

set_option maxRecDepth 8192 in
/-- Claim C8 (counterexample): for an unrecognized state the generated
wait script is not the `visible` script — the fallback omits the
`style.opacity !== \x270\x27` conjunct that the visible script carries. -/
theorem c8_default_script_differs_from_visible :
    generateWaitScript "div" "bogus" ≠ generateWaitScript "div" "visible" := by
  decide

/-- Claim C8 (amended): for every selector and every state other than
attached, detached, visible and hidden, generateWaitScript produces —
without error — the visible-style condition script (non-null element,
non-zero layout box, computed style not display:none or
visibility:hidden) except that, unlike the script produced for the state
`visible`, it omits the opacity:0 check: the two scripts share the common
prefix and differ exactly in that final conjunct. -/
theorem c8_unrecognized_state_visible_fallback (selector state : String)
    (h1 : state ≠ "attached") (h2 : state ≠ "detached")
    (h3 : state ≠ "visible") (h4 : state ≠ "hidden") :
    generateWaitScript selector state = waitScriptCommon selector ++ ";\n\t\t" ∧
    generateWaitScript selector "visible" =
      waitScriptCommon selector ++ " && style.opacity !== \x270\x27;\n\t\t" := by
  constructor
  · simp only [generateWaitScript, h1, h2, h3, h4, if_false, waitScriptCommon,
      stringAppendAssoc]
  · simp only [generateWaitScript, waitScriptCommon, stringAppendAssoc]
    rw [if_neg (show ("visible" : String) ≠ "attached" by decide),
      if_neg (show ("visible" : String) ≠ "detached" by decide)]
    simp only [if_true]

theorem c8_unrecognized_state_visible_fallback_witness :
    generateWaitScript "div" "bogus" = waitScriptCommon "div" ++ ";\n\t\t" ∧
    generateWaitScript "div" "visible" =
      waitScriptCommon "div" ++ " && style.opacity !== \x270\x27;\n\t\t" :=
  c8_unrecognized_state_visible_fallback "div" "bogus"
    (by decide) (by decide) (by decide) (by decide)
